import Mathlib

/-!
Shallow embedding of the Kismet tracked-component core
(`devicetracker_component.h`, `trackedelement.cc`): the RRD aggregation
policies, the full and minute-only RRD `add_sample` state transformers,
the `TrackerElement` container operations, and the tracked-signal merge
operator.  Machine integers are modelled as `Int`/`Nat` with explicit
modular conversion where the C++ integer conversions matter; C++
undefined behaviour (division by zero, out-of-bounds access) is modelled
as `none`/`Except.error`.
-/

/-- Conversion of a signed 64-bit value to `uint64_t` (C++ modular conversion). -/
def u64ofInt (x : Int) : Nat := (x % (2 : Int) ^ 64).toNat

/-- Reinterpretation of an unsigned 64-bit value as `int64_t` (two's complement). -/
def i64ofU64 (n : Nat) : Int := if n < 2 ^ 63 then (n : Int) else (n : Int) - 2 ^ 64

/-- The C++ expression `a / n` where `a : int64_t` and `n : size_t`: the usual
arithmetic conversions make the division unsigned 64-bit; division by zero is
undefined behaviour, modelled as `none`. -/
def i64divSize (a : Int) (n : Nat) : Option Int :=
  if n = 0 then none else some (i64ofU64 (u64ofInt a / n))

namespace kis_tracked_rrd_default_aggregator

/-- Source `kis_tracked_rrd_default_aggregator::combine_element`: adds the new value
to the current value. -/
def combine_element (a b : Int) : Int := a + b

/-- Source `kis_tracked_rrd_default_aggregator::combine_vector`: sums all slots and
divides by `v.size()` (an `int64_t` / `size_t` division, hence `i64divSize`). -/
def combine_vector (v : List Int) : Option Int :=
  i64divSize (v.foldl (fun acc x => acc + x) 0) v.length

/-- Source `kis_tracked_rrd_default_aggregator::default_val`. -/
def default_val : Int := 0

end kis_tracked_rrd_default_aggregator

namespace kis_tracked_rrd_peak_signal_aggregator

/-- Source `kis_tracked_rrd_peak_signal_aggregator::combine_element`: selects the
stronger signal. -/
def combine_element (a b : Int) : Int := if a < b then b else a

/-- Source `kis_tracked_rrd_peak_signal_aggregator::default_val`. -/
def default_val : Int := 0

/-- Source `kis_tracked_rrd_peak_signal_aggregator::combine_vector`: averages the
non-zero slots (`avg / avgc`, both `int64_t`, so C signed division `tdiv`);
returns `default_val` when no slot is non-zero. -/
def combine_vector (v : List Int) : Int :=
  let p := v.foldl (fun acc x => if x = 0 then acc else (acc.1 + x, acc.2 + 1))
    ((0 : Int), (0 : Int))
  if p.2 = 0 then default_val else Int.tdiv p.1 p.2

end kis_tracked_rrd_peak_signal_aggregator

namespace kis_tracked_rrd_extreme_aggregator

/-- Source `kis_tracked_rrd_extreme_aggregator::combine_element`: selects the most
extreme value (same branch structure as the source). -/
def combine_element (a b : Int) : Int :=
  if a < 0 ∧ b < 0 then (if a < b then a else b)
  else if a > 0 ∧ b > 0 then (if a > b then a else b)
  else if a = 0 then b
  else if b = 0 then a
  else if a < b then a
  else b

/-- Source `kis_tracked_rrd_extreme_aggregator::combine_vector`: plain mean over all
slots (same `int64_t` / `size_t` division as the default aggregator). -/
def combine_vector (v : List Int) : Option Int :=
  i64divSize (v.foldl (fun acc x => acc + x) 0) v.length

/-- Source `kis_tracked_rrd_extreme_aggregator::default_val`. -/
def default_val : Int := 0

end kis_tracked_rrd_extreme_aggregator

lemma foldl_add_of_all_zero : ∀ (v : List Int) (a : Int), (∀ x ∈ v, x = 0) →
    v.foldl (fun acc x => acc + x) a = a
  | [], _, _ => rfl
  | x :: t, a, h => by
    have hx : x = 0 := h x (List.mem_cons_self x t)
    have ht : ∀ y ∈ t, y = 0 := fun y hy => h y (List.mem_cons_of_mem x hy)
    simp only [List.foldl_cons, hx, Int.add_zero]
    exact foldl_add_of_all_zero t a ht

lemma i64divSize_zero_left (n : Nat) (h : n ≠ 0) : i64divSize 0 n = some 0 := by
  simp [i64divSize, h, u64ofInt, i64ofU64]

/-- Sum of the non-zero entries of a bucket. -/
def nonzeroSum : List Int → Int
  | [] => 0
  | x :: t => if x = 0 then nonzeroSum t else x + nonzeroSum t

/-- Number of non-zero entries of a bucket. -/
def nonzeroCount : List Int → Nat
  | [] => 0
  | x :: t => if x = 0 then nonzeroCount t else 1 + nonzeroCount t

lemma nonzeroCount_eq_zero_of_all_zero : ∀ (v : List Int), (∀ x ∈ v, x = 0) →
    nonzeroCount v = 0
  | [], _ => rfl
  | x :: t, h => by
    have hx : x = 0 := h x (List.mem_cons_self x t)
    have ht : ∀ y ∈ t, y = 0 := fun y hy => h y (List.mem_cons_of_mem x hy)
    simp only [nonzeroCount, if_pos hx]
    exact nonzeroCount_eq_zero_of_all_zero t ht

lemma peak_foldl : ∀ (v : List Int) (a c : Int),
    v.foldl (fun acc x => if x = 0 then acc else (acc.1 + x, acc.2 + 1)) (a, c)
      = (a + nonzeroSum v, c + (nonzeroCount v : Int))
  | [], a, c => by simp [nonzeroSum, nonzeroCount]
  | x :: t, a, c => by
    by_cases hx : x = 0
    · simp only [List.foldl_cons, if_pos hx, nonzeroSum, nonzeroCount, hx]
      exact peak_foldl t a c
    · simp only [List.foldl_cons, if_neg hx, nonzeroSum, nonzeroCount]
      rw [peak_foldl t (a + x) (c + 1)]
      rw [Prod.mk.injEq]
      constructor
      · omega
      · push_cast
        omega

lemma peak_combine_vector_eq (v : List Int) :
    kis_tracked_rrd_peak_signal_aggregator.combine_vector v =
      if nonzeroCount v = 0 then
        kis_tracked_rrd_peak_signal_aggregator.default_val
      else Int.tdiv (nonzeroSum v) (nonzeroCount v : Int) := by
  unfold kis_tracked_rrd_peak_signal_aggregator.combine_vector
  rw [peak_foldl v 0 0]
  simp only [Int.zero_add]
  by_cases h : nonzeroCount v = 0
  · rw [if_pos (by exact_mod_cast h), if_pos h]
  · rw [if_neg (by exact_mod_cast h), if_neg h]

/-- C2 counterexample: the sum/average and extreme-value policies apply
`combine_vector` to an empty slot vector by dividing by `v.size() = 0`
(undefined behaviour, modelled as `none`); they do not return the default. -/
theorem c2_degenerate_aggregation_counterexample :
    kis_tracked_rrd_default_aggregator.combine_vector [] = none ∧
    kis_tracked_rrd_extreme_aggregator.combine_vector [] = none := by
  exact ⟨rfl, rfl⟩

/-- C2 (amended): only the peak-signal policy handles zero contributing slots
explicitly, returning its default value for every all-zero bucket; the
sum/average and extreme-value policies divide by the slot count
unconditionally, so they divide by zero on an empty slot vector, and return
the default only on non-empty buckets whose slots all hold the default. -/
theorem c2_degenerate_aggregation_amended :
    (∀ v : List Int, (∀ x ∈ v, x = 0) →
      kis_tracked_rrd_peak_signal_aggregator.combine_vector v =
        kis_tracked_rrd_peak_signal_aggregator.default_val) ∧
    kis_tracked_rrd_default_aggregator.combine_vector [] = none ∧
    kis_tracked_rrd_extreme_aggregator.combine_vector [] = none ∧
    (∀ v : List Int, v ≠ [] → (∀ x ∈ v, x = 0) →
      kis_tracked_rrd_default_aggregator.combine_vector v = some 0 ∧
      kis_tracked_rrd_extreme_aggregator.combine_vector v = some 0) := by
  refine ⟨fun v hv => ?_, rfl, rfl, fun v hne hv => ?_⟩
  · rw [peak_combine_vector_eq v, if_pos (nonzeroCount_eq_zero_of_all_zero v hv)]
  · have hlen : v.length ≠ 0 := fun h => hne (List.length_eq_zero.mp h)
    constructor
    · unfold kis_tracked_rrd_default_aggregator.combine_vector
      rw [foldl_add_of_all_zero v 0 hv]
      exact i64divSize_zero_left _ hlen
    · unfold kis_tracked_rrd_extreme_aggregator.combine_vector
      rw [foldl_add_of_all_zero v 0 hv]
      exact i64divSize_zero_left _ hlen

/-- Witness for C2 (amended) at the concrete all-default bucket `[0]`. -/
theorem c2_degenerate_aggregation_amended_witness :
    kis_tracked_rrd_peak_signal_aggregator.combine_vector [0] =
      kis_tracked_rrd_peak_signal_aggregator.default_val ∧
    kis_tracked_rrd_default_aggregator.combine_vector [0] = some 0 := by
  refine ⟨c2_degenerate_aggregation_amended.1 [0] ?_,
    (c2_degenerate_aggregation_amended.2.2.2 [0] ?_ ?_).1⟩
  · decide
  · decide
  · decide

/-- C6: the extreme-value policy's `combine_element` takes the minimum (the
more negative, larger-magnitude value) when both operands are negative, the
maximum when both are positive, the other operand when one operand is zero,
and the minimum — i.e. the negative operand — on mixed signs; in particular
the four quoted evaluations hold. -/
theorem c6_extreme_combine_element :
    (∀ a b : Int, kis_tracked_rrd_extreme_aggregator.combine_element a b =
      if a < 0 ∧ b < 0 then min a b
      else if 0 < a ∧ 0 < b then max a b
      else if a = 0 then b
      else if b = 0 then a
      else min a b) ∧
    kis_tracked_rrd_extreme_aggregator.combine_element (-5) (-10) = -10 ∧
    kis_tracked_rrd_extreme_aggregator.combine_element 5 10 = 10 ∧
    kis_tracked_rrd_extreme_aggregator.combine_element 0 7 = 7 ∧
    kis_tracked_rrd_extreme_aggregator.combine_element (-3) 4 = -3 := by
  refine ⟨fun a b => ?_, by decide, by decide, by decide, by decide⟩
  unfold kis_tracked_rrd_extreme_aggregator.combine_element
  split_ifs <;> omega

/-- C7: the peak-signal policy's `combine_bucket` (`combine_vector`) returns
the default value when the bucket has no non-zero slot, and otherwise the
truncated mean of the non-zero slots only; for `[0, 0, -40, 0, -30]` this is
`(-40 + -30) / 2 = -35`. -/
theorem c7_peak_combine_vector :
    (∀ v : List Int,
      kis_tracked_rrd_peak_signal_aggregator.combine_vector v =
        if nonzeroCount v = 0 then
          kis_tracked_rrd_peak_signal_aggregator.default_val
        else Int.tdiv (nonzeroSum v) (nonzeroCount v : Int)) ∧
    kis_tracked_rrd_peak_signal_aggregator.combine_vector [0, 0, -40, 0, -30] = -35 := by
  exact ⟨peak_combine_vector_eq, by decide⟩

/-- The template parameter `Aggregator` of the RRD classes, supplying
`combine_element`, `combine_vector` and `default_val`. -/
structure Aggregator where
  combine_element : Int → Int → Int
  combine_vector : List Int → Option Int
  default_val : Int

/-- The sum/average policy `kis_tracked_rrd_default_aggregator` as an
`Aggregator` instance. -/
def default_aggregator : Aggregator :=
  { combine_element := kis_tracked_rrd_default_aggregator.combine_element,
    combine_vector := kis_tracked_rrd_default_aggregator.combine_vector,
    default_val := kis_tracked_rrd_default_aggregator.default_val }

/-- The peak-signal policy as an `Aggregator` instance (its `combine_vector`
never divides by zero, hence always `some`). -/
def peak_signal_aggregator : Aggregator :=
  { combine_element := kis_tracked_rrd_peak_signal_aggregator.combine_element,
    combine_vector := fun v => some (kis_tracked_rrd_peak_signal_aggregator.combine_vector v),
    default_val := kis_tracked_rrd_peak_signal_aggregator.default_val }

/-- The extreme-value policy as an `Aggregator` instance. -/
def extreme_aggregator : Aggregator :=
  { combine_element := kis_tracked_rrd_extreme_aggregator.combine_element,
    combine_vector := kis_tracked_rrd_extreme_aggregator.combine_vector,
    default_val := kis_tracked_rrd_extreme_aggregator.default_val }

/-- One full overwrite pass of the RRD code over a slot vector: each slot at
index `bucket` is set to `x`, every other slot to `d` (the iterator loops of
the reset and long-gap branches of `kis_tracked_rrd::add_sample`). -/
def fillIdx (d x : Int) (bucket : Int) : Nat → List Int → List Int
  | _, [] => []
  | i, _ :: t => (if (i : Int) = bucket then x else d) :: fillIdx d x bucket (i + 1) t

/-- Overwrite pass starting at index 0. -/
def overwriteAt (d x : Int) (bucket : Int) (v : List Int) : List Int :=
  fillIdx d x bucket 0 v

/-- The fast-forward loops of `add_sample`: for `h = 0 .. n-1`, the slot at
index `(start + h) % modulus` (C integer `%`, hence `tmod`) is set to `d`. -/
def clearSlots (d : Int) (v : List Int) (start : Int) (modulus : Int) : Nat → List Int
  | 0 => v
  | n + 1 => (clearSlots d v start modulus n).set (((start + (n : Int)).tmod modulus).toNat) d

/-- The wipe loop of `kis_tracked_minute_rrd::add_sample`: slots `0 .. n-1`
are set to `d`. -/
def wipeLoop (d : Int) (v : List Int) : Nat → List Int
  | 0 => v
  | n + 1 => (wipeLoop d v n).set n d

namespace kis_tracked_rrd

/-- Source `kis_tracked_rrd::minutes_different`. -/
def minutes_different (m1 m2 : Int) : Int :=
  if m1 = m2 then 0 else if m1 < m2 then m2 - m1 else 60 - m1 + m2

/-- Source `kis_tracked_rrd::hours_different`. -/
def hours_different (h1 h2 : Int) : Int :=
  if h1 = h2 then 0 else if h1 < h2 then h2 - h1 else 24 - h1 + h2

/-- The mutable state of a full `kis_tracked_rrd`: `last_time` and the three
ring-buffer slot vectors (60 seconds, 60 minutes, 24 hours). -/
structure State where
  last_time : Int
  minute_vec : List Int
  hour_vec : List Int
  day_vec : List Int
deriving DecidableEq

/-- Source `kis_tracked_rrd<Aggregator>::add_sample`, as a state transformer.  The
`combine_vector` calls go through `Option.bind` because the aggregator's
bucket reduction is partial (division by zero on an empty vector); on the
60/60/24-slot vectors of a constructed RRD it always succeeds. -/
def add_sample (agg : Aggregator) (in_s in_time : Int) (st : State) : Option State :=
  let sec_bucket := in_time.tmod 60
  let min_bucket := (in_time.tdiv 60).tmod 60
  let hour_bucket := (in_time.tdiv 3600).tmod 24
  let ltime := st.last_time
  let last_sec_bucket := ltime.tmod 60
  let last_min_bucket := (ltime.tdiv 60).tmod 60
  let last_hour_bucket := (ltime.tdiv 3600).tmod 24
  if in_time < ltime then some st
  else if in_time - ltime > 60 * 60 * 24 then
    let mv := overwriteAt agg.default_val in_s sec_bucket st.minute_vec
    (agg.combine_vector mv).bind fun min_val =>
    let hv := overwriteAt agg.default_val min_val min_bucket st.hour_vec
    (agg.combine_vector hv).bind fun hr_val =>
    let dv := overwriteAt agg.default_val hr_val hour_bucket st.day_vec
    some { last_time := in_time, minute_vec := mv, hour_vec := hv, day_vec := dv }
  else if in_time - ltime > 60 * 60 then
    let mv := overwriteAt agg.default_val in_s sec_bucket st.minute_vec
    (agg.combine_vector mv).bind fun sec_avg =>
    let hv1 := overwriteAt agg.default_val sec_avg min_bucket st.hour_vec
    (agg.combine_vector hv1).bind fun min_avg =>
    let hv2 := clearSlots agg.default_val hv1 (last_hour_bucket + 1) 24
      ((hours_different (last_hour_bucket + 1) hour_bucket).toNat)
    let dv := st.day_vec.set hour_bucket.toNat min_avg
    some { last_time := in_time, minute_vec := mv, hour_vec := hv2, day_vec := dv }
  else if in_time - ltime > 60 then
    let mv := overwriteAt agg.default_val in_s sec_bucket st.minute_vec
    (agg.combine_vector mv).bind fun sec_avg =>
    let hv := (clearSlots agg.default_val st.hour_vec (last_min_bucket + 1) 60
      ((minutes_different (last_min_bucket + 1) min_bucket).toNat)).set min_bucket.toNat sec_avg
    (agg.combine_vector hv).bind fun min_avg =>
    let dv := st.day_vec.set hour_bucket.toNat min_avg
    some { last_time := in_time, minute_vec := mv, hour_vec := hv, day_vec := dv }
  else
    let mv :=
      if in_time = ltime then
        st.minute_vec.set sec_bucket.toNat
          (agg.combine_element (st.minute_vec.getD sec_bucket.toNat 0) in_s)
      else
        (clearSlots agg.default_val st.minute_vec (last_sec_bucket + 1) 60
          ((minutes_different (last_sec_bucket + 1) sec_bucket).toNat)).set sec_bucket.toNat in_s
    (agg.combine_vector mv).bind fun sec_avg =>
    let hv := st.hour_vec.set min_bucket.toNat sec_avg
    (agg.combine_vector hv).bind fun min_avg =>
    let dv := st.day_vec.set hour_bucket.toNat min_avg
    some { last_time := in_time, minute_vec := mv, hour_vec := hv, day_vec := dv }

/-- A freshly constructed full RRD: `reserve_fields` builds 60/60/24 zeroed
slots, and every scalar element starts at 0, so `last_time = 0`. -/
def fresh : State :=
  { last_time := 0,
    minute_vec := List.replicate 60 0,
    hour_vec := List.replicate 60 0,
    day_vec := List.replicate 24 0 }

end kis_tracked_rrd

namespace kis_tracked_minute_rrd

/-- Source `kis_tracked_minute_rrd::minutes_different`. -/
def minutes_different (m1 m2 : Int) : Int :=
  if m1 = m2 then 0 else if m1 < m2 then m2 - m1 else 60 - m1 + m2

/-- The mutable state of a `kis_tracked_minute_rrd`: `last_time` and the
60-slot second vector. -/
structure State where
  last_time : Int
  minute_vec : List Int
deriving DecidableEq

/-- Source `kis_tracked_minute_rrd<Aggregator>::add_sample`. -/
def add_sample (agg : Aggregator) (in_s in_time : Int) (st : State) : State :=
  let sec_bucket := in_time.tmod 60
  let ltime := st.last_time
  let last_sec_bucket := ltime.tmod 60
  if in_time < ltime then st
  else
    let mv :=
      if in_time - ltime > 60 then wipeLoop agg.default_val st.minute_vec 60
      else if in_time = ltime then
        st.minute_vec.set sec_bucket.toNat
          (agg.combine_element (st.minute_vec.getD sec_bucket.toNat 0) in_s)
      else
        (clearSlots agg.default_val st.minute_vec (last_sec_bucket + 1) 60
          ((minutes_different (last_sec_bucket + 1) sec_bucket).toNat)).set sec_bucket.toNat in_s
    { last_time := in_time, minute_vec := mv }

end kis_tracked_minute_rrd

lemma wipeLoop_length (d : Int) (v : List Int) : ∀ n : Nat, (wipeLoop d v n).length = v.length
  | 0 => rfl
  | n + 1 => by
    simp only [wipeLoop, List.length_set]
    exact wipeLoop_length d v n

lemma wipeLoop_getElem (d : Int) (v : List Int) :
    ∀ (n i : Nat), i < n → i < v.length → (wipeLoop d v n)[i]? = some d
  | 0, i, h, _ => absurd h (Nat.not_lt_zero i)
  | n + 1, i, h, hv => by
    by_cases hi : i = n
    · have hv2 : n < v.length := hi ▸ hv
      simp only [wipeLoop, hi]
      exact List.getElem?_set_eq_of_lt d ((wipeLoop_length d v n).symm ▸ hv2)
    · have hn : i < n := Nat.lt_of_le_of_ne (Nat.le_of_lt_succ h) hi
      simp only [wipeLoop]
      rw [List.getElem?_set_ne (fun he => hi he.symm)]
      exact wipeLoop_getElem d v n i hn hv

/-- C1 counterexample: on a fresh sum/average full RRD, after `add_sample(7, 0)`
and `add_sample(9, 100000)` the minute slot at the current minute position
`(100000 / 60) % 60 = 46` holds `0` (the `combine_bucket` rollup `9 / 60`
under integer division), not the raw value `9` the claim asserts. -/
theorem c1_day_reset_counterexample :
    (((kis_tracked_rrd.add_sample default_aggregator 7 0 kis_tracked_rrd.fresh).bind
        (kis_tracked_rrd.add_sample default_aggregator 9 100000)).map
      (fun s => s.hour_vec[46]?)) = some (some 0) ∧
    (((kis_tracked_rrd.add_sample default_aggregator 7 0 kis_tracked_rrd.fresh).bind
        (kis_tracked_rrd.add_sample default_aggregator 9 100000)).map
      (fun s => s.hour_vec[46]?)) ≠ some (some 9) := by
  constructor
  · rfl
  · decide

set_option maxRecDepth 20000 in
/-- C1 (amended): on a fresh sum/average full RRD, `add_sample(7, 0)` then
`add_sample(9, 100000)` leaves every slot at the default value except the
current second position `100000 % 60 = 40`, which holds the raw value `9`;
the recomputed minute slot (position 46) and hour slot (position 3) hold the
`combine_bucket` rollups `9 / 60 = 0` and `0 / 60 = 0` — the default value
under integer division, not the raw value. -/
theorem c1_day_reset_amended :
    ((kis_tracked_rrd.add_sample default_aggregator 7 0 kis_tracked_rrd.fresh).bind
        (kis_tracked_rrd.add_sample default_aggregator 9 100000)) =
      some { last_time := 100000,
             minute_vec := (List.replicate 60 0).set 40 9,
             hour_vec := List.replicate 60 0,
             day_vec := List.replicate 24 0 } := by
  decide

/-- C8: in both RRD variants, a sample whose timestamp is strictly before
`last_time` is a defined no-op: `add_sample` returns with the state (slot
vectors and `last_time`) unchanged, for every aggregation policy. -/
theorem c8_stale_sample_noop (agg : Aggregator) (v t : Int)
    (st : kis_tracked_rrd.State) (mst : kis_tracked_minute_rrd.State)
    (h1 : t < st.last_time) (h2 : t < mst.last_time) :
    kis_tracked_rrd.add_sample agg v t st = some st ∧
    kis_tracked_minute_rrd.add_sample agg v t mst = mst := by
  constructor
  · simp only [kis_tracked_rrd.add_sample]
    rw [if_pos h1]
  · simp only [kis_tracked_minute_rrd.add_sample]
    rw [if_pos h2]

/-- Witness for C8 at `t = 3` against states with `last_time = 5`. -/
theorem c8_stale_sample_noop_witness :
    kis_tracked_rrd.add_sample default_aggregator 1 3
      { last_time := 5, minute_vec := List.replicate 60 0,
        hour_vec := List.replicate 60 0, day_vec := List.replicate 24 0 } =
      some { last_time := 5, minute_vec := List.replicate 60 0,
             hour_vec := List.replicate 60 0, day_vec := List.replicate 24 0 } ∧
    kis_tracked_minute_rrd.add_sample default_aggregator 1 3
      { last_time := 5, minute_vec := List.replicate 60 0 } =
      { last_time := 5, minute_vec := List.replicate 60 0 } := by
  exact c8_stale_sample_noop default_aggregator 1 3 _ _ (by decide) (by decide)

/-- C9: in the minute-only RRD, a sample arriving with a gap of more than 60
seconds wipes all 60 second-slots to the aggregator's default and discards
the incoming value: afterwards every slot below index 60 — in particular the
one at `timestamp % 60` — holds the default value, `last_time` is the new
timestamp, and the resulting state does not depend on the sample value. -/
theorem c9_minute_rrd_gap_wipe (agg : Aggregator) (v w t : Int)
    (st : kis_tracked_minute_rrd.State)
    (hlen : st.minute_vec.length = 60)
    (hgap : t - st.last_time > 60) (ht : 0 ≤ t) :
    (kis_tracked_minute_rrd.add_sample agg v t st).last_time = t ∧
    (∀ i : Nat, i < 60 →
      ((kis_tracked_minute_rrd.add_sample agg v t st).minute_vec)[i]? =
        some agg.default_val) ∧
    ((kis_tracked_minute_rrd.add_sample agg v t st).minute_vec)[(t.tmod 60).toNat]? =
      some agg.default_val ∧
    kis_tracked_minute_rrd.add_sample agg v t st =
      kis_tracked_minute_rrd.add_sample agg w t st := by
  have hlt : ¬ t < st.last_time := by omega
  have hgt : t - st.last_time > 60 := hgap
  have hmod : (t.tmod 60).toNat < 60 := by
    have h1 : t.tmod 60 < 60 := Int.tmod_lt_of_pos t (by decide)
    have h2 : 0 ≤ t.tmod 60 := Int.tmod_nonneg 60 ht
    omega
  have hv' : kis_tracked_minute_rrd.add_sample agg v t st =
      { last_time := t, minute_vec := wipeLoop agg.default_val st.minute_vec 60 } := by
    simp only [kis_tracked_minute_rrd.add_sample, if_neg hlt, if_pos hgt]
  have hw' : kis_tracked_minute_rrd.add_sample agg w t st =
      { last_time := t, minute_vec := wipeLoop agg.default_val st.minute_vec 60 } := by
    simp only [kis_tracked_minute_rrd.add_sample, if_neg hlt, if_pos hgt]
  refine ⟨by rw [hv'], fun i hi => ?_, ?_, by rw [hv', hw']⟩
  · simp only [hv']
    exact wipeLoop_getElem agg.default_val st.minute_vec 60 i hi (by omega)
  · simp only [hv']
    exact wipeLoop_getElem agg.default_val st.minute_vec 60 _ hmod (by omega)

/-- Witness for C9 at the concrete call `add_sample(9, 100)` against a state
with `last_time = 0` and a fully populated slot vector. -/
theorem c9_minute_rrd_gap_wipe_witness :
    (kis_tracked_minute_rrd.add_sample default_aggregator 9 100
      { last_time := 0, minute_vec := List.replicate 60 7 }).last_time = 100 ∧
    ((kis_tracked_minute_rrd.add_sample default_aggregator 9 100
      { last_time := 0, minute_vec := List.replicate 60 7 }).minute_vec)[40]? =
      some default_aggregator.default_val := by
  have h := c9_minute_rrd_gap_wipe default_aggregator 9 9 100
    { last_time := 0, minute_vec := List.replicate 60 7 }
    (by decide) (by decide) (by decide)
  exact ⟨h.1, h.2.1 40 (by decide)⟩

/-- The runtime kind tag of a `TrackerElement` (the kinds enumerated by
`TrackerElement::type_to_string`). -/
inductive TrackerType
  | TrackerString
  | TrackerInt8
  | TrackerUInt8
  | TrackerInt16
  | TrackerUInt16
  | TrackerInt32
  | TrackerUInt32
  | TrackerInt64
  | TrackerUInt64
  | TrackerFloat
  | TrackerDouble
  | TrackerMac
  | TrackerVector
  | TrackerMap
  | TrackerIntMap
  | TrackerUuid
  | TrackerMacMap
deriving DecidableEq

/-- Errors of the container operations: `TypeMismatch` (wrong kind), the
fatal out-of-range error thrown by `del_vector` (the spec's
OwnershipViolation), and undefined behaviour from an out-of-bounds
`std::vector` access. -/
inductive TrackerError
  | typeMismatch
  | outOfRange
  | undefinedAccess
deriving DecidableEq

def keyLookup {α : Type} [DecidableEq α] (k : α) : List (α × Nat) → Option Nat
  | [] => none
  | (a, c) :: t => if a = k then some c else keyLookup k t

def keyErase {α : Type} [DecidableEq α] (k : α) : List (α × Nat) → List (α × Nat)
  | [] => []
  | (a, c) :: t => if a = k then t else (a, c) :: keyErase k t

def keyInsert {α : Type} [DecidableEq α] (k : α) (s : Nat) : List (α × Nat) → List (α × Nat)
  | [] => [(k, s)]
  | (a, c) :: t => if a = k then (k, s) :: t else (a, c) :: keyInsert k s t

/-- A `TrackerElement` node for the container operations: its kind tag and
the four container members, which all exist on every node regardless of its
kind (as in the C++ class).  Child nodes are opaque identifiers (`Nat`), as
is the `mac_addr` key, which the spec treats as an opaque ordered key.
Scalar payloads are not needed by the container operations. -/
structure TrackerElement where
  ttype : TrackerType
  subvector_value : List Nat
  submap_value : List (Int × Nat)
  subintmap_value : List (Int × Nat)
  submacmap_value : List (Nat × Nat)
deriving DecidableEq

namespace TrackerElement

/-- Modelled from the spec: `except_type_mismatch` is declared in
`trackedelement.h`, which is not among the sources; per the spec's
TypeMismatch taxonomy it fails when the node's kind disagrees with the
expected kind and is a no-op otherwise. -/
def except_type_mismatch (e : TrackerElement) (t : TrackerType) : Except TrackerError Unit :=
  if e.ttype = t then Except.ok () else Except.error TrackerError.typeMismatch

/-- Source `TrackerElement::add_macmap`.  Returns the updated node, the children
unlinked (the replaced entry, if any) and the children linked. -/
def add_macmap (e : TrackerElement) (i : Nat) (s : Nat) :
    Except TrackerError (TrackerElement × List Nat × List Nat) :=
  (e.except_type_mismatch TrackerType.TrackerMacMap).bind fun _ =>
  Except.ok ({ e with submacmap_value := keyInsert i s e.submacmap_value },
    (keyLookup i e.submacmap_value).toList, [s])

/-- Source `TrackerElement::del_macmap`.  The source guards this operation with
`except_type_mismatch(TrackerMap)` — the id-keyed map kind — and then
erases from `submacmap_value`, unlinking the erased child.  (The source
reads `mi->second` after erasing the iterator `mi`; the model performs the
read first.) -/
def del_macmap (e : TrackerElement) (f : Nat) :
    Except TrackerError (TrackerElement × List Nat) :=
  (e.except_type_mismatch TrackerType.TrackerMap).bind fun _ =>
  match keyLookup f e.submacmap_value with
  | some c => Except.ok ({ e with submacmap_value := keyErase f e.submacmap_value }, [c])
  | none => Except.ok (e, [])

/-- Source `TrackerElement::add_intmap`. -/
def add_intmap (e : TrackerElement) (i : Int) (s : Nat) :
    Except TrackerError (TrackerElement × List Nat × List Nat) :=
  (e.except_type_mismatch TrackerType.TrackerIntMap).bind fun _ =>
  Except.ok ({ e with subintmap_value := keyInsert i s e.subintmap_value },
    (keyLookup i e.subintmap_value).toList, [s])

/-- Source `TrackerElement::del_intmap`.  The source looks the key up in
`subintmap_value` but then calls `submap_value.erase(i)` — erasing from the
id-keyed map member instead — before unlinking the found child. -/
def del_intmap (e : TrackerElement) (i : Int) :
    Except TrackerError (TrackerElement × List Nat) :=
  (e.except_type_mismatch TrackerType.TrackerIntMap).bind fun _ =>
  match keyLookup i e.subintmap_value with
  | some c => Except.ok ({ e with submap_value := keyErase i e.submap_value }, [c])
  | none => Except.ok (e, [])

/-- Source `TrackerElement::add_vector`. -/
def add_vector (e : TrackerElement) (s : Nat) :
    Except TrackerError (TrackerElement × List Nat) :=
  (e.except_type_mismatch TrackerType.TrackerVector).bind fun _ =>
  Except.ok ({ e with subvector_value := e.subvector_value ++ [s] }, [s])

/-- Source `TrackerElement::del_vector`.  The source rejects only `p > size()` with
its fatal out-of-range error; `p = size()` passes the check, and the
subsequent `subvector_value[p]` access is out of bounds — undefined
behaviour, modelled as `undefinedAccess`. -/
def del_vector (e : TrackerElement) (p : Nat) :
    Except TrackerError (TrackerElement × List Nat) :=
  (e.except_type_mismatch TrackerType.TrackerVector).bind fun _ =>
  if p > e.subvector_value.length then Except.error TrackerError.outOfRange
  else
    match e.subvector_value[p]? with
    | none => Except.error TrackerError.undefinedAccess
    | some c => Except.ok ({ e with subvector_value := e.subvector_value.eraseIdx p }, [c])

/-- Source `TrackerElement::size`. -/
def size (e : TrackerElement) : Except TrackerError Nat :=
  match e.ttype with
  | TrackerType.TrackerVector => Except.ok e.subvector_value.length
  | TrackerType.TrackerMap => Except.ok e.submap_value.length
  | TrackerType.TrackerIntMap => Except.ok e.subintmap_value.length
  | TrackerType.TrackerMacMap => Except.ok e.submacmap_value.length
  | _ => Except.error TrackerError.typeMismatch

end TrackerElement

/-- C3 (code bug): `del_macmap` guards with `except_type_mismatch(TrackerMap)`
instead of `TrackerMacMap`, so on a MAC-keyed map node holding the entry
`1 ↦ 7` it fails with TypeMismatch rather than erasing, while on an id-keyed
map node it is accepted and erases from the MAC-map member. -/
theorem c3_del_macmap_type_check_bug :
    TrackerElement.del_macmap
      { ttype := TrackerType.TrackerMacMap, subvector_value := [],
        submap_value := [], subintmap_value := [], submacmap_value := [(1, 7)] } 1 =
      Except.error TrackerError.typeMismatch ∧
    TrackerElement.del_macmap
      { ttype := TrackerType.TrackerMap, subvector_value := [],
        submap_value := [], subintmap_value := [], submacmap_value := [(1, 7)] } 1 =
      Except.ok ({ ttype := TrackerType.TrackerMap, subvector_value := [],
                   submap_value := [], subintmap_value := [],
                   submacmap_value := [] }, [7]) := by
  exact ⟨rfl, rfl⟩

/-- C4 (code bug): on an int-keyed map node holding the entry `5 ↦ 7`,
`del_intmap(5)` erases from `submap_value` instead of `subintmap_value`, so
the node is returned entirely unchanged — key 5 is still present and the
map's size is not decreased — even though the child 7 is still unlinked
exactly once. -/
theorem c4_del_intmap_erase_bug :
    TrackerElement.del_intmap
      { ttype := TrackerType.TrackerIntMap, subvector_value := [],
        submap_value := [], subintmap_value := [(5, 7)], submacmap_value := [] } 5 =
      Except.ok ({ ttype := TrackerType.TrackerIntMap, subvector_value := [],
                   submap_value := [], subintmap_value := [(5, 7)],
                   submacmap_value := [] }, [7]) ∧
    keyLookup 5 [((5 : Int), 7)] = some 7 := by
  exact ⟨rfl, rfl⟩

/-- C5 (code bug): `del_vector`'s bounds check rejects only `p > n`; at
`p = n` (here an empty sequence and `p = 0`) the check passes and the
element access runs past the end of the vector (undefined behaviour) instead
of failing with the fatal out-of-range error, which is raised only for
`p > n`.  For `p < n` the element is removed and unlinked. -/
theorem c5_del_vector_bounds_bug :
    TrackerElement.del_vector
      { ttype := TrackerType.TrackerVector, subvector_value := [],
        submap_value := [], subintmap_value := [], submacmap_value := [] } 0 =
      Except.error TrackerError.undefinedAccess ∧
    TrackerElement.del_vector
      { ttype := TrackerType.TrackerVector, subvector_value := [],
        submap_value := [], subintmap_value := [], submacmap_value := [] } 1 =
      Except.error TrackerError.outOfRange ∧
    TrackerElement.del_vector
      { ttype := TrackerType.TrackerVector, subvector_value := [7],
        submap_value := [], subintmap_value := [], submacmap_value := [] } 0 =
      Except.ok ({ ttype := TrackerType.TrackerVector, subvector_value := [],
                   submap_value := [], subintmap_value := [],
                   submacmap_value := [] }, [7]) := by
  exact ⟨rfl, rfl, rfl⟩

/-- The signal-report kind tag `kis_l1_signal_type` (declared in
`packinfo_signal.h`, not among the sources; only the `dbm` and `rssi` tags
are referenced by the merge operator). -/
inductive kis_l1_signal_type
  | sig_other
  | dbm
  | rssi
deriving DecidableEq

/-- The fields of `kis_layer1_packinfo` read by the merge operator
(the floating-point data rate and the carrier/encoding bitsets are not
referenced by the claims and are omitted). -/
structure kis_layer1_packinfo where
  signal_type : kis_l1_signal_type
  signal_dbm : Int
  noise_dbm : Int
  signal_rssi : Int
  noise_rssi : Int
deriving DecidableEq

/-- The twelve dBm/RSSI signal and noise fields of
`kis_tracked_signal_data` that the merge operator updates. -/
structure kis_tracked_signal_data where
  last_signal_dbm : Int
  min_signal_dbm : Int
  max_signal_dbm : Int
  last_noise_dbm : Int
  min_noise_dbm : Int
  max_noise_dbm : Int
  last_signal_rssi : Int
  min_signal_rssi : Int
  max_signal_rssi : Int
  last_noise_rssi : Int
  min_noise_rssi : Int
  max_noise_rssi : Int
deriving DecidableEq

namespace kis_tracked_signal_data

/-- Source `kis_tracked_signal_data::operator+=(const kis_layer1_packinfo&)`,
restricted to the signal/noise fields (the carrier/encoding bitsets and the
floating-point `maxseenrate`, which the rssi branch also touches, are not
referenced by the claims).  Note the rssi minimum branch writes
`min_signal_dbm`, as in the source. -/
def add_layer1 (st : kis_tracked_signal_data) (l : kis_layer1_packinfo) :
    kis_tracked_signal_data :=
  if l.signal_type = kis_l1_signal_type.dbm then
    let st1 :=
      if l.signal_dbm ≠ 0 then
        let a := { st with last_signal_dbm := l.signal_dbm }
        let b :=
          if a.min_signal_dbm = 0 ∨ a.min_signal_dbm > l.signal_dbm then
            { a with min_signal_dbm := l.signal_dbm }
          else a
        if b.max_signal_dbm = 0 ∨ b.max_signal_dbm < l.signal_dbm then
          { b with max_signal_dbm := l.signal_dbm }
        else b
      else st
    if l.noise_dbm ≠ 0 then
      let a := { st1 with last_noise_dbm := l.noise_dbm }
      let b :=
        if a.min_noise_dbm = 0 ∨ a.min_noise_dbm > l.noise_dbm then
          { a with min_noise_dbm := l.noise_dbm }
        else a
      if b.max_noise_dbm = 0 ∨ b.max_noise_dbm < l.noise_dbm then
        { b with max_noise_dbm := l.noise_dbm }
      else b
    else st1
  else if l.signal_type = kis_l1_signal_type.rssi then
    let st1 :=
      if l.signal_rssi ≠ 0 then
        let a := { st with last_signal_rssi := l.signal_rssi }
        let b :=
          if a.min_signal_rssi = 0 ∨ a.min_signal_rssi > l.signal_rssi then
            { a with min_signal_dbm := l.signal_rssi }
          else a
        if b.max_signal_rssi = 0 ∨ b.max_signal_rssi < l.signal_rssi then
          { b with max_signal_rssi := l.signal_rssi }
        else b
      else st
    if l.noise_rssi ≠ 0 then
      let a := { st1 with last_noise_rssi := l.noise_rssi }
      let b :=
        if a.min_noise_rssi = 0 ∨ a.min_noise_rssi > l.noise_rssi then
          { a with min_noise_rssi := l.noise_rssi }
        else a
      if b.max_noise_rssi = 0 ∨ b.max_noise_rssi < l.noise_rssi then
        { b with max_noise_rssi := l.noise_rssi }
      else b
    else st1
  else st

end kis_tracked_signal_data

/-- C10: in the merge operator, an RSSI-type sample with a nonzero signal
value below the stored RSSI minimum (or with the stored minimum still 0)
has its new minimum written into `min_signal_dbm` while `min_signal_rssi`
itself stays unchanged; the remaining signal fields go to their own
storage — `last_signal_rssi` takes the sample, `max_signal_rssi` updates
under its own maximum test, the noise fields update the noise storage, and
the dBm-side `last`/`max` fields are untouched. -/
theorem c10_rssi_min_writes_dbm_field (st : kis_tracked_signal_data)
    (l : kis_layer1_packinfo)
    (h1 : l.signal_type = kis_l1_signal_type.rssi)
    (h2 : l.signal_rssi ≠ 0)
    (h3 : st.min_signal_rssi = 0 ∨ st.min_signal_rssi > l.signal_rssi) :
    (st.add_layer1 l).min_signal_dbm = l.signal_rssi ∧
    (st.add_layer1 l).min_signal_rssi = st.min_signal_rssi ∧
    (st.add_layer1 l).last_signal_rssi = l.signal_rssi ∧
    (st.add_layer1 l).max_signal_rssi =
      (if st.max_signal_rssi = 0 ∨ st.max_signal_rssi < l.signal_rssi then
        l.signal_rssi else st.max_signal_rssi) ∧
    (st.add_layer1 l).last_noise_rssi =
      (if l.noise_rssi ≠ 0 then l.noise_rssi else st.last_noise_rssi) ∧
    (st.add_layer1 l).min_noise_rssi =
      (if l.noise_rssi ≠ 0 ∧ (st.min_noise_rssi = 0 ∨ st.min_noise_rssi > l.noise_rssi)
        then l.noise_rssi else st.min_noise_rssi) ∧
    (st.add_layer1 l).max_noise_rssi =
      (if l.noise_rssi ≠ 0 ∧ (st.max_noise_rssi = 0 ∨ st.max_noise_rssi < l.noise_rssi)
        then l.noise_rssi else st.max_noise_rssi) ∧
    (st.add_layer1 l).last_signal_dbm = st.last_signal_dbm ∧
    (st.add_layer1 l).max_signal_dbm = st.max_signal_dbm := by
  have hne : l.signal_type ≠ kis_l1_signal_type.dbm := by
    rw [h1]
    exact fun h => kis_l1_signal_type.noConfusion h
  simp only [kis_tracked_signal_data.add_layer1, if_neg hne, if_pos h1, if_pos h2,
    if_pos h3]
  split_ifs <;> simp_all

/-- Witness for C10: an all-zero signal record merged with an RSSI sample of
strength 40 records the minimum in the dBm minimum field. -/
theorem c10_rssi_min_writes_dbm_field_witness :
    (kis_tracked_signal_data.add_layer1
      { last_signal_dbm := 0, min_signal_dbm := 0, max_signal_dbm := 0,
        last_noise_dbm := 0, min_noise_dbm := 0, max_noise_dbm := 0,
        last_signal_rssi := 0, min_signal_rssi := 0, max_signal_rssi := 0,
        last_noise_rssi := 0, min_noise_rssi := 0, max_noise_rssi := 0 }
      { signal_type := kis_l1_signal_type.rssi, signal_dbm := 0, noise_dbm := 0,
        signal_rssi := 40, noise_rssi := 0 }).min_signal_dbm = 40 ∧
    (kis_tracked_signal_data.add_layer1
      { last_signal_dbm := 0, min_signal_dbm := 0, max_signal_dbm := 0,
        last_noise_dbm := 0, min_noise_dbm := 0, max_noise_dbm := 0,
        last_signal_rssi := 0, min_signal_rssi := 0, max_signal_rssi := 0,
        last_noise_rssi := 0, min_noise_rssi := 0, max_noise_rssi := 0 }
      { signal_type := kis_l1_signal_type.rssi, signal_dbm := 0, noise_dbm := 0,
        signal_rssi := 40, noise_rssi := 0 }).min_signal_rssi = 0 := by
  have h := c10_rssi_min_writes_dbm_field
    { last_signal_dbm := 0, min_signal_dbm := 0, max_signal_dbm := 0,
      last_noise_dbm := 0, min_noise_dbm := 0, max_noise_dbm := 0,
      last_signal_rssi := 0, min_signal_rssi := 0, max_signal_rssi := 0,
      last_noise_rssi := 0, min_noise_rssi := 0, max_noise_rssi := 0 }
    { signal_type := kis_l1_signal_type.rssi, signal_dbm := 0, noise_dbm := 0,
      signal_rssi := 40, noise_rssi := 0 }
    rfl (by decide) (Or.inl rfl)
  exact ⟨h.1, h.2.1⟩
